import Mathlib

/-!
A shallow embedding of the server-status state machine of `src/lib/statusManager.ts`
and the port probe of `src/app/api/check-server/route.ts` (PanelMCX).

External effects are passed in as explicit inputs:
* the stdout / failure of a shell command (`ExecResult`),
* the platform branch taken by `process.platform` (`Platform`),
* the wall-clock timestamp used for `StatusInfo.timestamp` (a plain `String`),
* the contents of `server.properties` (`FileRead`).

JavaScript numbers produced by `parseInt` are modelled exactly (`JsNum`:
either NaN or an integer); the claims under study never reach the range
where IEEE-754 rounding of `parseInt` results would be observable.
-/

set_option maxRecDepth 20000

namespace PanelMCX

/-- JS `\s` character class (the whitespace set used by `trim`, `\s` and `parseInt`). -/
def isJsWs (c : Char) : Bool :=
  c == ' ' || c == '\t' || c == '\n' || c == '\r' || c == '\u000B' || c == '\u000C' ||
  c == '\u00A0' || c == '\u1680' || ('\u2000' ≤ c && c ≤ '\u200A') ||
  c == '\u2028' || c == '\u2029' || c == '\u202F' || c == '\u205F' ||
  c == '\u3000' || c == '\uFEFF'

/-- JS `String.prototype.trim` on a character list. -/
def jsTrimL (cs : List Char) : List Char :=
  ((cs.dropWhile isJsWs).reverse.dropWhile isJsWs).reverse

/-- JS `str.split(sep)` for a single-character separator. -/
def splitOnChar (sep : Char) : List Char → List (List Char)
  | [] => [[]]
  | c :: rest =>
    if c == sep then [] :: splitOnChar sep rest
    else
      match splitOnChar sep rest with
      | [] => [[c]]
      | l :: ls => (c :: l) :: ls

/-- JS `str.split(/\r?\n/)`: each `\r\n` or bare `\n` is a separator. -/
def splitCRLF : List Char → List (List Char)
  | [] => [[]]
  | '\r' :: '\n' :: rest => [] :: splitCRLF rest
  | c :: rest =>
    if c == '\n' then [] :: splitCRLF rest
    else
      match splitCRLF rest with
      | [] => [[c]]
      | l :: ls => (c :: l) :: ls

/-- Does `cs` start with the literal `pat`? (JS `String.prototype.startsWith`.) -/
def startsWithL : List Char → List Char → Bool
  | [], _ => true
  | _ :: _, [] => false
  | p :: ps, c :: cs => p == c && startsWithL ps cs

/-- Does `cs` contain `pat` as a contiguous substring? (JS `String.prototype.includes`.) -/
def containsSub (pat : List Char) : List Char → Bool
  | [] => startsWithL pat []
  | c :: rest => startsWithL pat (c :: rest) || containsSub pat rest

/-- Value of a list of decimal digit characters. -/
def digitsToNat (ds : List Char) : Nat :=
  ds.foldl (fun a c => a * 10 + (c.toNat - 48)) 0

/-- Hexadecimal digit test (JS `parseInt` with an `0x` prefix). -/
def isHexDigit (c : Char) : Bool :=
  c.isDigit || ('a' ≤ c && c ≤ 'f') || ('A' ≤ c && c ≤ 'F')

/-- Value of one hexadecimal digit character. -/
def hexVal (c : Char) : Nat :=
  if c.isDigit then c.toNat - 48
  else if 'a' ≤ c && c ≤ 'f' then c.toNat - 87
  else c.toNat - 55

/-- Value of a list of hexadecimal digit characters. -/
def hexToNat (ds : List Char) : Nat :=
  ds.foldl (fun a c => a * 16 + hexVal c) 0

/-- Result of JS `parseInt`: NaN or an exact integer. -/
inductive JsNum where
  | nan : JsNum
  | int : Int → JsNum
deriving DecidableEq, Repr, BEq

/-- Magnitude part of JS `parseInt` (after whitespace and sign are consumed):
an `0x`/`0X` prefix switches to base 16; the longest digit prefix is taken;
no digits means NaN. -/
def parseIntMag (cs : List Char) : Option Nat :=
  match cs with
  | '0' :: x :: rest =>
    if x == 'x' || x == 'X' then
      let ds := rest.takeWhile isHexDigit
      if ds.isEmpty then none else some (hexToNat ds)
    else
      some (digitsToNat (('0' :: x :: rest).takeWhile Char.isDigit))
  | _ =>
    let ds := cs.takeWhile Char.isDigit
    if ds.isEmpty then none else some (digitsToNat ds)

/-- JS `parseInt(s)` (radix unspecified), modelled exactly over the integers. -/
def parseIntJS (cs : List Char) : JsNum :=
  let cs := cs.dropWhile isJsWs
  match cs with
  | '-' :: rest =>
    match parseIntMag rest with
    | none => .nan
    | some n => .int (-(n : Int))
  | '+' :: rest =>
    match parseIntMag rest with
    | none => .nan
    | some n => .int (n : Int)
  | _ =>
    match parseIntMag cs with
    | none => .nan
    | some n => .int (n : Int)

/-- Consume one expected literal character. -/
def expectChar (c : Char) : List Char → Option (List Char)
  | x :: rest => if x == c then some rest else none
  | [] => none

/-- Consume an expected literal character sequence. -/
def expectLit : List Char → List Char → Option (List Char)
  | [], cs => some cs
  | p :: ps, c :: cs => if c == p then expectLit ps cs else none
  | _ :: _, [] => none

/-- Consume one decimal digit (regex `\d`). -/
def expectDigit : List Char → Option (List Char)
  | c :: rest => if c.isDigit then some rest else none
  | [] => none

/-- Consume a maximal nonempty run of characters satisfying `p` (regex `+`,
maximal munch — equivalent to backtracking here because in the Done pattern
each `+`-class is disjoint from the following required literal). -/
def plusMunch (p : Char → Bool) : List Char → Option (List Char)
  | c :: rest => if p c then some (rest.dropWhile p) else none
  | [] => none

/-- Regex fragment `\[\d{2}:\d{2}:\d{2}`: bracketed HH:MM:SS timestamp. -/
def doneStamp (cs : List Char) : Option (List Char) :=
  (expectChar '[' cs).bind fun cs =>
  (expectDigit cs).bind fun cs =>
  (expectDigit cs).bind fun cs =>
  (expectChar ':' cs).bind fun cs =>
  (expectDigit cs).bind fun cs =>
  (expectDigit cs).bind fun cs =>
  (expectChar ':' cs).bind fun cs =>
  (expectDigit cs).bind expectDigit

/-- Regex fragment `\s+INFO\]:\s+Done`: the INFO marker and the Done word. -/
def doneMarker (cs : List Char) : Option (List Char) :=
  (plusMunch isJsWs cs).bind fun cs =>
  (expectLit "INFO]:".toList cs).bind fun cs =>
  (plusMunch isJsWs cs).bind
  (expectLit "Done".toList)

/-- Regex fragment `\s+\(\d+\.\d+s\)!`: the elapsed-seconds suffix. -/
def doneSeconds (cs : List Char) : Option (List Char) :=
  (plusMunch isJsWs cs).bind fun cs =>
  (expectChar '(' cs).bind fun cs =>
  (plusMunch Char.isDigit cs).bind fun cs =>
  (expectChar '.' cs).bind fun cs =>
  (plusMunch Char.isDigit cs).bind
  (expectLit "s)!".toList)

/-- Match of the regex `\[\d{2}:\d{2}:\d{2}\s+INFO\]:\s+Done\s+\(\d+\.\d+s\)!`
anchored at the head of `cs` (`donePattern` of `StatusManager.handleTerminalLine`). -/
def doneMatchAt (cs : List Char) : Bool :=
  ((doneStamp cs).bind fun cs => (doneMarker cs).bind doneSeconds).isSome

/-- Unanchored search for the Done pattern (JS `RegExp.prototype.test`). -/
def doneLineTest : List Char → Bool
  | [] => doneMatchAt []
  | c :: rest => doneMatchAt (c :: rest) || doneLineTest rest

/-- TerminalLineClassifier: `donePattern.test(line)`. -/
def matchStartupComplete (line : String) : Bool :=
  doneLineTest line.toList

/-- Pid extraction from one Unix `ps aux` output line: the regex
`^\S+\s+(\d+)` — a nonempty non-whitespace user field, whitespace, then the
first numeric token, returned as the captured pid. -/
def psLinePid (cs : List Char) : Option Nat :=
  let tok := cs.takeWhile (fun c => !(isJsWs c))
  let rest1 := cs.dropWhile (fun c => !(isJsWs c))
  if tok.isEmpty then none
  else
    let ws := rest1.takeWhile isJsWs
    let rest2 := rest1.dropWhile isJsWs
    if ws.isEmpty then none
    else
      let ds := rest2.takeWhile Char.isDigit
      if ds.isEmpty then none else some (digitsToNat ds)

/-- First line of the Unix branch's loop whose `^\S+\s+(\d+)` match succeeds. -/
def unixScan : List (List Char) → Option Nat
  | [] => none
  | l :: rest =>
    match psLinePid l with
    | some pid => some pid
    | none => unixScan rest

/-- Windows branch line test: `line.toLowerCase().includes('java.exe')`. -/
def winLineMatch (cs : List Char) : Bool :=
  containsSub "java.exe".toList (cs.map Char.toLower)

/-- First line of the Windows branch's loop containing `java.exe`. -/
def winScan : List (List Char) → Option (List Char)
  | [] => none
  | l :: rest => if winLineMatch l then some l else winScan rest

/-- Windows pid extraction: `parts[1]?.replace(/"/g, '').trim()`, then
`parseInt(pid || '0')`. -/
def winLinePid (cs : List Char) : JsNum :=
  let pid :=
    match (splitOnChar ',' cs).get? 1 with
    | some p => jsTrimL (p.filter (fun c => !(c == '"')))
    | none => []
  parseIntJS (if pid.isEmpty then "0".toList else pid)

/-- The four lifecycle states of `ServerStatus`. -/
inductive ServerStatus where
  | stopped : ServerStatus
  | starting : ServerStatus
  | running : ServerStatus
  | stopping : ServerStatus
deriving DecidableEq, Repr, BEq

/-- Result of one `checkJavaProcess` call (`{ found: boolean; pid?: number }`). -/
structure ProcessCheck where
  found : Bool
  pid : Option JsNum
deriving DecidableEq, Repr, BEq

/-- The `StatusInfo` snapshot handed to listeners and query endpoints. -/
structure StatusInfo where
  status : ServerStatus
  timestamp : String
  processFound : Bool
  pid : Option JsNum
deriving DecidableEq, Repr, BEq

/-- A registered listener callback: an identity plus whether the callback
throws synchronously when invoked. -/
structure Listener where
  id : Nat
  throws : Bool
deriving DecidableEq, Repr, BEq

/-- Record of one listener invocation during a notification loop: which
listener ran, the snapshot it received, and whether its exception was
caught (and logged) by the manager's per-listener `try`/`catch`. -/
structure NotifyEvent where
  listenerId : Nat
  info : StatusInfo
  threw : Bool
deriving DecidableEq, Repr, BEq

/-- The mutable fields of the `StatusManager` class. A monitor handle is
`some interval` (milliseconds) when the `setInterval` loop is installed and
`none` after `clearInterval` / before any start. -/
structure ManagerState where
  currentStatus : ServerStatus
  listeners : List Listener
  stoppingMonitorInterval : Option Nat
  runningMonitorInterval : Option Nat
  lastProcessCheck : ProcessCheck
deriving DecidableEq, Repr, BEq

/-- The state of a freshly constructed `StatusManager` (field initializers). -/
def mgr0 : ManagerState :=
  { currentStatus := .stopped
    listeners := []
    stoppingMonitorInterval := none
    runningMonitorInterval := none
    lastProcessCheck := { found := false, pid := none } }

/-- Platform branch taken by `process.platform`. -/
inductive Platform where
  | win32 : Platform
  | unix : Platform
deriving DecidableEq, Repr

/-- Outcome of `execAsync(command)`: captured stdout, or a rejection
(missing binary, permission denied, non-zero exit). -/
inductive ExecResult where
  | ok : String → ExecResult
  | err : ExecResult
deriving DecidableEq, Repr

/-- StatusManager.getStatus. -/
def getStatus (s : ManagerState) : ServerStatus :=
  s.currentStatus

/-- StatusManager.getStatusInfo, with the wall clock passed in for
`new Date().toISOString()`. -/
def getStatusInfo (s : ManagerState) (now : String) : StatusInfo :=
  { status := s.currentStatus
    timestamp := now
    processFound := s.lastProcessCheck.found
    pid := s.lastProcessCheck.pid }

/-- One listener invocation: the callback body either returns or throws. -/
def runListener (l : Listener) (_info : StatusInfo) : Except String Unit :=
  if l.throws then .error "listener failed" else .ok ()

/-- The `listeners.forEach` loop of `setStatus`: every listener is called
with the snapshot inside `try`/`catch`, so a throwing listener is recorded
as caught and the loop continues with the remaining listeners. -/
def notifyAll (ls : List Listener) (info : StatusInfo) : List NotifyEvent :=
  ls.map fun l =>
    match runListener l info with
    | .ok _ => { listenerId := l.id, info := info, threw := false }
    | .error _ => { listenerId := l.id, info := info, threw := true }

/-- StatusManager.stopRunningMonitor: `clearInterval` + null the handle. -/
def stopRunningMonitor (s : ManagerState) : ManagerState :=
  { s with runningMonitorInterval := none }

/-- StatusManager.startRunningMonitor: clear any existing handle, then
install the 5000 ms `setInterval` loop. -/
def startRunningMonitor (s : ManagerState) : ManagerState :=
  { stopRunningMonitor s with runningMonitorInterval := some 5000 }

/-- StatusManager.stopStoppingMonitor: `clearInterval` + null the handle. -/
def stopStoppingMonitor (s : ManagerState) : ManagerState :=
  { s with stoppingMonitorInterval := none }

/-- StatusManager.startStoppingMonitor: clear any existing handle, then
install the 1000 ms `setInterval` loop. -/
def startStoppingMonitor (s : ManagerState) : ManagerState :=
  { stopStoppingMonitor s with stoppingMonitorInterval := some 1000 }

/-- StatusManager.setStatus: early return on no change; otherwise commit the
new status, notify every listener with one fresh snapshot, then switch the
monitor loops according to the new state. Returns the new state and the
listener invocations that occurred. -/
def setStatus (s : ManagerState) (newStatus : ServerStatus) (now : String) :
    ManagerState × List NotifyEvent :=
  if s.currentStatus = newStatus then (s, [])
  else
    let s1 := { s with currentStatus := newStatus }
    let statusInfo := getStatusInfo s1 now
    let events := notifyAll s1.listeners statusInfo
    let s2 :=
      match newStatus with
      | .running => stopStoppingMonitor (startRunningMonitor s1)
      | .stopping => startStoppingMonitor (stopRunningMonitor s1)
      | .stopped => stopStoppingMonitor (stopRunningMonitor s1)
      | .starting => stopStoppingMonitor (stopRunningMonitor s1)
    (s2, events)

/-- Pure part of StatusManager.checkJavaProcess: what the probe returns for
a given platform branch and command outcome. Any rejection of the command is
caught and mapped to `found: false`; otherwise the first stdout line that
matches the platform's shape wins. -/
def checkJavaProcess (platform : Platform) (res : ExecResult) : ProcessCheck :=
  match res with
  | .err => { found := false, pid := none }
  | .ok stdout =>
    match platform with
    | .win32 =>
      match winScan (splitOnChar '\n' (jsTrimL stdout.toList)) with
      | some line => { found := true, pid := some (winLinePid line) }
      | none => { found := false, pid := none }
    | .unix =>
      if (jsTrimL stdout.toList).isEmpty then { found := false, pid := none }
      else
        match unixScan (splitOnChar '\n' (jsTrimL stdout.toList)) with
        | some pid => { found := true, pid := some (.int (pid : Int)) }
        | none => { found := false, pid := none }

/-- StatusManager.checkJavaProcess as a state transformer: every return path
stores the result in `lastProcessCheck` before returning it. -/
def checkJavaProcessM (s : ManagerState) (platform : Platform) (res : ExecResult) :
    ManagerState × ProcessCheck :=
  let pc := checkJavaProcess platform res
  ({ s with lastProcessCheck := pc }, pc)

/-- StatusManager.initialize: one probe call, then a direct assignment of
`currentStatus` — `running` if the probe found a process, else `stopped`.
No listener is notified and no monitor loop is touched (the empty event
list reflects that the code never reaches the notify loop). -/
def initializeManager (s : ManagerState) (platform : Platform) (res : ExecResult) :
    ManagerState × List NotifyEvent :=
  let (s1, pc) := checkJavaProcessM s platform res
  if pc.found then ({ s1 with currentStatus := .running }, [])
  else ({ s1 with currentStatus := .stopped }, [])

/-- Body of the running monitor's 5-second `setInterval` tick: probe, and on
`found: false` set status to `stopped`. -/
def runningMonitorTick (s : ManagerState) (platform : Platform) (res : ExecResult)
    (now : String) : ManagerState × List NotifyEvent :=
  let (s1, pc) := checkJavaProcessM s platform res
  if pc.found then (s1, [])
  else setStatus s1 .stopped now

/-- Body of the stopping monitor's 1-second `setInterval` tick: probe, and on
`found: false` set status to `stopped`. -/
def stoppingMonitorTick (s : ManagerState) (platform : Platform) (res : ExecResult)
    (now : String) : ManagerState × List NotifyEvent :=
  let (s1, pc) := checkJavaProcessM s platform res
  if pc.found then (s1, [])
  else setStatus s1 .stopped now

/-- StatusManager.handleTerminalLine: ignore every line unless the current
status is exactly `starting`; then test the Done banner pattern and switch
to `running` on a match. -/
def handleTerminalLine (s : ManagerState) (line : String) (now : String) :
    ManagerState × List NotifyEvent :=
  if s.currentStatus ≠ .starting then (s, [])
  else if matchStartupComplete line then setStatus s .running now
  else (s, [])

/-- StatusManager.addListener: `Set.add` (no duplicate handles). -/
def addListener (s : ManagerState) (l : Listener) : ManagerState :=
  if s.listeners.contains l then s else { s with listeners := s.listeners ++ [l] }

/-- The deregistration closure returned by `addListener`: `Set.delete`. -/
def removeListener (s : ManagerState) (l : Listener) : ManagerState :=
  { s with listeners := s.listeners.erase l }

/-- StatusManager.destroy: stop both monitors, clear the listener set. -/
def destroy (s : ManagerState) : ManagerState :=
  { stopStoppingMonitor (stopRunningMonitor s) with listeners := [] }

/-- Outcome of `fs.readFile` on `mc/server.properties`. -/
inductive FileRead where
  | ok : String → FileRead
  | err : FileRead
deriving DecidableEq, Repr

/-- Result of `isPortListening` (`{ listening: boolean; port?: number }`). -/
structure PortResult where
  listening : Bool
  port : Option Int
deriving DecidableEq, Repr, BEq

/-- JS `x || d` for the number `x = parseInt(...)`: NaN and 0 are falsy. -/
def jsOrInt (v : JsNum) (d : Int) : Int :=
  match v with
  | .nan => d
  | .int n => if n = 0 then d else n

/-- Value field of a `server-port=` line: `line.split('=')[1].trim()`. -/
def portLineValue (l : List Char) : List Char :=
  jsTrimL ((splitOnChar '=' l).getD 1 [])

/-- The `for (const line of content.split(/\r?\n/))` loop of `isPortListening`:
starts from the default 25565, overwrites it from the first line that starts
with `server-port=` (via `parseInt(...) || 25565`), then breaks. -/
def portScan : List (List Char) → Int
  | [] => 25565
  | l :: rest =>
    if startsWithL "server-port=".toList l then jsOrInt (parseIntJS (portLineValue l)) 25565
    else portScan rest

/-- Port configured by a `server.properties` content string. -/
def getConfiguredPort (content : String) : Int :=
  portScan (splitCRLF content.toList)

/-- isPortListening of `src/app/api/check-server/route.ts`: read the
properties file, determine the port, run the platform's listener-listing
command for that port, and report whether it printed anything. Every
failure (file read, command rejection) is caught and becomes
`{ listening: false }`. -/
def isPortListening (file : FileRead) (runCmd : Int → ExecResult) : PortResult :=
  match file with
  | .err => { listening := false, port := none }
  | .ok content =>
    let serverPort := getConfiguredPort content
    match runCmd serverPort with
    | .err => { listening := false, port := none }
    | .ok stdout =>
      { listening := decide (0 < (jsTrimL stdout.toList).length), port := some serverPort }

/-- The canonical Minecraft server-ready banner line (testable property 4). -/
def doneLine : String := "[13:45:02 INFO]: Done (8.512s)! For help, type \"help\""

/-- A startup log line that is not the Done banner (testable property 4). -/
def loadingLine : String := "[13:45:02 INFO]: Loading plugins..."

/-- One Unix `ps aux` output line for a java process running a jar. -/
def psOutLine : String := "root      4242  0.1  1.2 java -jar server.jar"

/-- A manager in the `running` state with its 5-second monitor installed,
one registered listener and a cached positive process check. -/
def mgrRunning : ManagerState :=
  { currentStatus := .running
    listeners := [{ id := 7, throws := false }]
    stoppingMonitorInterval := none
    runningMonitorInterval := some 5000
    lastProcessCheck := { found := true, pid := some (.int 4242) } }

/-- A manager in the `starting` state with a throwing listener registered
before a well-behaved one. -/
def mgrStarting : ManagerState :=
  { mgr0 with
    currentStatus := .starting
    listeners := [{ id := 0, throws := true }, { id := 1, throws := false }] }

/-- A manager in the `starting` state with one listener and a negative
cached process check. -/
def mgrStarting1 : ManagerState :=
  { mgr0 with currentStatus := .starting, listeners := [{ id := 0, throws := false }] }

/-- Monitor-exclusivity invariant: a running-monitor handle exists only in
the `running` state and a stopping-monitor handle only in the `stopping`
state (hence at most one of the two is ever active). -/
def MonitorInv (s : ManagerState) : Prop :=
  (s.runningMonitorInterval ≠ none → s.currentStatus = .running) ∧
  (s.stoppingMonitorInterval ≠ none → s.currentStatus = .stopping)

instance (s : ManagerState) : Decidable (MonitorInv s) := by
  unfold MonitorInv; infer_instance

theorem digit_char_facts (c : Char) (h : c ∈ "0123456789".toList) :
    c.isDigit = true ∧ isJsWs c = false := by
  fin_cases h <;> decide

theorem setStatus_noop (s : ManagerState) (t : ServerStatus) (now : String)
    (h : s.currentStatus = t) : setStatus s t now = (s, []) := by
  simp [setStatus, h]

theorem setStatus_commit (s : ManagerState) (t : ServerStatus) (now : String)
    (h : s.currentStatus ≠ t) :
    setStatus s t now =
      ({ currentStatus := t
         listeners := s.listeners
         stoppingMonitorInterval := if t = .stopping then some 1000 else none
         runningMonitorInterval := if t = .running then some 5000 else none
         lastProcessCheck := s.lastProcessCheck },
       notifyAll s.listeners
         { status := t, timestamp := now
           processFound := s.lastProcessCheck.found, pid := s.lastProcessCheck.pid }) := by
  cases t <;>
    simp [setStatus, h, getStatusInfo, startRunningMonitor, stopRunningMonitor,
      startStoppingMonitor, stopStoppingMonitor]

theorem notifyAll_eq (ls : List Listener) (info : StatusInfo) :
    notifyAll ls info = ls.map fun l => { listenerId := l.id, info := info, threw := l.throws } := by
  induction ls with
  | nil => rfl
  | cons l rest ih =>
    by_cases hb : l.throws <;> simp [notifyAll, runListener, hb] at ih ⊢ <;> exact ih

theorem takeWhile_append_all (p : Char → Bool) (xs ys : List Char)
    (hxs : ∀ c ∈ xs, p c = true) (hys : ∀ c ∈ ys.take 1, p c = false) :
    (xs ++ ys).takeWhile p = xs ∧ (xs ++ ys).dropWhile p = ys := by
  induction xs with
  | nil =>
    cases ys with
    | nil => simp
    | cons y ys' => simp [List.takeWhile, List.dropWhile, hys y (by simp)]
  | cons x xs' ih =>
    have hx : p x = true := hxs x (by simp)
    have := ih (fun c hc => hxs c (by simp [hc]))
    simp [List.takeWhile, List.dropWhile, hx, this]

theorem psLinePid_spec (user ws ds rest : List Char)
    (hu : user ≠ []) (hu2 : ∀ c ∈ user, isJsWs c = false)
    (hw : ws ≠ []) (hw2 : ∀ c ∈ ws, isJsWs c = true)
    (hd : ds ≠ []) (hd2 : ∀ c ∈ ds, c ∈ "0123456789".toList)
    (hr : ∀ c ∈ rest.take 1, c.isDigit = false) :
    psLinePid (user ++ ws ++ ds ++ rest) = some (digitsToNat ds) := by
  have h1 := takeWhile_append_all (fun c => !(isJsWs c)) user (ws ++ ds ++ rest)
    (fun c hc => by simp [hu2 c hc])
    (fun c hc => by
      cases ws with
      | nil => exact absurd rfl hw
      | cons w ws' =>
        rw [show c = w from by simpa using hc]
        simp [hw2 w (by simp)])
  have h2 := takeWhile_append_all isJsWs ws (ds ++ rest)
    (fun c hc => hw2 c hc)
    (fun c hc => by
      cases ds with
      | nil => exact absurd rfl hd
      | cons d ds' =>
        rw [show c = d from by simpa using hc]
        exact (digit_char_facts d (hd2 d (by simp))).2)
  have h3 := takeWhile_append_all Char.isDigit ds rest
    (fun c hc => (digit_char_facts c (hd2 c hc)).1)
    hr
  simp only [psLinePid, List.append_assoc] at *
  rw [h1.1, h1.2, h2.1, h2.2, h3.1]
  simp [hu, hw, hd]

theorem unixScan_first (pre : List (List Char)) (line : List Char)
    (post : List (List Char)) (p : Nat)
    (hpre : ∀ l ∈ pre, psLinePid l = none) (hline : psLinePid line = some p) :
    unixScan (pre ++ line :: post) = some p := by
  induction pre with
  | nil => simp [unixScan, hline]
  | cons a as ih =>
    have ha := hpre a (by simp)
    simp only [List.cons_append, unixScan, ha]
    exact ih (fun l hl => hpre l (by simp [hl]))

theorem portScan_eq_find (ls : List (List Char)) :
    portScan ls =
      (match ls.find? (fun l => startsWithL "server-port=".toList l) with
       | none => 25565
       | some l => jsOrInt (parseIntJS (portLineValue l)) 25565) := by
  induction ls with
  | nil => rfl
  | cons a as ih =>
    simp only [portScan]
    by_cases h : startsWithL "server-port=".toList a = true
    · rw [if_pos h, List.find?_cons_of_pos _ h]
    · rw [if_neg h, List.find?_cons_of_neg _ (by simpa using h), ih]

theorem monInv_setStatus (s : ManagerState) (t : ServerStatus) (now : String)
    (h : MonitorInv s) : MonitorInv (setStatus s t now).1 := by
  by_cases he : s.currentStatus = t
  · rw [setStatus_noop s t now he]; exact h
  · rw [setStatus_commit s t now he]
    cases t <;> simp [MonitorInv]


theorem monInv_at_most_one (s : ManagerState) (h : MonitorInv s) :
    s.runningMonitorInterval = none ∨ s.stoppingMonitorInterval = none := by
  by_cases hr : s.runningMonitorInterval = none
  · exact Or.inl hr
  · by_cases hs : s.stoppingMonitorInterval = none
    · exact Or.inr hs
    · exact absurd ((h.1 hr).symm.trans (h.2 hs)) (by decide)

theorem checkJavaProcess_not_found (platform : Platform) (res : ExecResult)
    (h : (checkJavaProcess platform res).found = false) :
    checkJavaProcess platform res = { found := false, pid := none } := by
  cases res with
  | err => rfl
  | ok out =>
    cases platform with
    | win32 =>
      simp only [checkJavaProcess] at h ⊢
      cases hw : winScan (splitOnChar '\n' (jsTrimL out.toList)) with
      | some l => rw [hw] at h; simp at h
      | none => rfl
    | unix =>
      simp only [checkJavaProcess] at h ⊢
      by_cases he : (jsTrimL out.toList).isEmpty = true
      · rw [if_pos he]
      · rw [if_neg he] at h ⊢
        cases hu : unixScan (splitOnChar '\n' (jsTrimL out.toList)) with
        | some p => rw [hu] at h; simp at h
        | none => rfl

/-- Claim C1 (amended): `initialize()` performs one probe call and sets the
current status to `running` exactly when the probe found a process and to
`stopped` otherwise, by direct field assignment: no listener is notified,
`lastProcessCheck` is updated to the probe result, and the listener set and
both monitor handles are left exactly as they were — in particular entering
`running` this way does not start the 5-second running monitor. -/
theorem initializeManager_direct_assignment (s : ManagerState) (platform : Platform)
    (res : ExecResult) :
    initializeManager s platform res =
      ({ s with
          currentStatus := if (checkJavaProcess platform res).found then .running else .stopped
          lastProcessCheck := checkJavaProcess platform res }, []) := by
  by_cases h : (checkJavaProcess platform res).found <;>
    simp [initializeManager, checkJavaProcessM, h]

/-- Claim C1 counterexample: starting from the freshly constructed manager,
`initialize()` with a probe that finds a java process (pid 4242) sets the
status to `running` but leaves the running-monitor handle `none`: entering
`running` through `initialize()` does not activate the 5-second running
monitor, contrary to the claim's "treated as a normal setStatus" clause. -/
theorem initializeManager_no_monitor_cex :
    (initializeManager mgr0 .unix (.ok psOutLine)).1.currentStatus = ServerStatus.running ∧
    (initializeManager mgr0 .unix (.ok psOutLine)).1.runningMonitorInterval = none := by
  constructor <;> decide

/-- Claim C2: for every state S, calling `setStatus(S)` while the current
status is already S is a complete no-op: the returned state is the input
state itself (same status, listener set, monitor handles and cached process
check) and the notification list is empty. -/
theorem setStatus_noop_suppression (s : ManagerState) (now : String) :
    setStatus s s.currentStatus now = (s, []) := by
  simp [setStatus]

/-- Claim C3: the monitor-exclusivity invariant (running monitor only in
`running`, stopping monitor only in `stopping`) is preserved by `setStatus`
to any state and by `handleTerminalLine` on any line, holds outright after
`destroy`, entering `starting` or `stopped` cancels both monitors, and after
any `setStatus` at most one of the two monitor handles is active. -/
theorem monitor_exclusivity (s : ManagerState) (t : ServerStatus) (line now : String)
    (h : MonitorInv s) :
    MonitorInv (setStatus s t now).1 ∧
    MonitorInv (handleTerminalLine s line now).1 ∧
    MonitorInv (destroy s) ∧
    ((t = .starting ∨ t = .stopped) →
      (setStatus s t now).1.runningMonitorInterval = none ∧
      (setStatus s t now).1.stoppingMonitorInterval = none) ∧
    ((setStatus s t now).1.runningMonitorInterval = none ∨
      (setStatus s t now).1.stoppingMonitorInterval = none) := by
  have hset := monInv_setStatus s t now h
  refine ⟨hset, ?_, ?_, ?_, monInv_at_most_one _ hset⟩
  · unfold handleTerminalLine
    by_cases h1 : s.currentStatus = ServerStatus.starting
    · by_cases h2 : matchStartupComplete line = true
      · simpa [h1, h2] using monInv_setStatus s .running now h
      · simpa [h1, h2] using h
    · simpa [h1] using h
  · exact ⟨fun hc => absurd rfl hc, fun hc => absurd rfl hc⟩
  · intro ht
    by_cases he : s.currentStatus = t
    · rw [setStatus_noop s t now he]
      rcases ht with ht | ht <;> subst ht <;>
        refine ⟨?_, ?_⟩ <;> by_contra hc <;>
        first
          | exact absurd (he.symm.trans (h.1 hc)) (by decide)
          | exact absurd (he.symm.trans (h.2 hc)) (by decide)
    · rw [setStatus_commit s t now he]
      rcases ht with ht | ht <;> subst ht <;> exact ⟨rfl, rfl⟩

/-- Witness for `monitor_exclusivity` at a concrete running manager. -/
theorem monitor_exclusivity_witness :
    MonitorInv mgrRunning ∧ MonitorInv (setStatus mgrRunning .stopped "T").1 :=
  ⟨by decide, (monitor_exclusivity mgrRunning .stopped "L" "T" (by decide)).1⟩

/-- Claim C4: `handleTerminalLine` changes the state iff the current status
is exactly `starting` and the line matches the Done-banner pattern, in which
case it performs `setStatus('running')`; in every other state and on every
non-matching line the state is returned untouched with zero notifications.
The canonical Done banner matches and, from `starting`, transitions to
`running` exactly once (a second identical line is ignored), while the
Loading line leaves the state unchanged. -/
theorem handleTerminalLine_classifier_gating (s : ManagerState) (line now : String) :
    (handleTerminalLine s line now =
      if s.currentStatus = ServerStatus.starting ∧ matchStartupComplete line = true
      then setStatus s .running now else (s, [])) ∧
    matchStartupComplete doneLine = true ∧
    matchStartupComplete loadingLine = false ∧
    ((handleTerminalLine s line now).1.currentStatus = s.currentStatus ↔
      ¬(s.currentStatus = ServerStatus.starting ∧ matchStartupComplete line = true)) ∧
    (s.currentStatus = ServerStatus.starting →
      (handleTerminalLine s doneLine now).1.currentStatus = ServerStatus.running ∧
      handleTerminalLine (handleTerminalLine s doneLine now).1 doneLine now =
        ((handleTerminalLine s doneLine now).1, []) ∧
      handleTerminalLine s loadingLine now = (s, [])) := by
  have heq : handleTerminalLine s line now =
      if s.currentStatus = ServerStatus.starting ∧ matchStartupComplete line = true
      then setStatus s .running now else (s, []) := by
    by_cases h1 : s.currentStatus = ServerStatus.starting
    · by_cases h2 : matchStartupComplete line = true
      · simp [handleTerminalLine, h1, h2]
      · simp [handleTerminalLine, h1, h2]
    · simp [handleTerminalLine, h1]
  refine ⟨heq, by decide, by decide, ?_, ?_⟩
  · by_cases h1 : s.currentStatus = ServerStatus.starting
    · by_cases h2 : matchStartupComplete line = true
      · rw [heq, if_pos ⟨h1, h2⟩, setStatus_commit s .running now (by rw [h1]; decide)]
        simp [h1, h2]
      · rw [heq, if_neg (by simp [h2])]
        simp [h2]
    · rw [heq, if_neg (by simp [h1])]
      simp [h1]
  · intro h1
    have hd : matchStartupComplete doneLine = true := by decide
    have r1 : handleTerminalLine s doneLine now = setStatus s .running now := by
      simp [handleTerminalLine, h1, hd]
    have hcommit := setStatus_commit s .running now (by rw [h1]; decide)
    refine ⟨?_, ?_, ?_⟩
    · rw [r1, hcommit]
    · rw [r1, hcommit]
      simp [handleTerminalLine]
    · simp [handleTerminalLine, h1, (by decide : matchStartupComplete loadingLine = false)]

/-- Witness for `handleTerminalLine_classifier_gating` at a concrete starting manager. -/
theorem handleTerminalLine_classifier_gating_witness :
    (handleTerminalLine mgrStarting1 doneLine "T").1.currentStatus = ServerStatus.running ∧
    handleTerminalLine mgrStarting1 loadingLine "T" = (mgrStarting1, []) :=
  ⟨((handleTerminalLine_classifier_gating mgrStarting1 doneLine "T").2.2.2.2 (by decide)).1,
   ((handleTerminalLine_classifier_gating mgrStarting1 doneLine "T").2.2.2.2 (by decide)).2.2⟩

/-- Claim C5: with status `running`, a running-monitor tick whose probe
reports `found: false` transitions to `stopped` exactly once: both monitor
handles are cleared and each registered listener receives exactly one
snapshot with status `stopped` and `processFound: false`; a tick whose probe
finds the process performs no transition and no notification (only the
cached probe result is refreshed). -/
theorem runningMonitor_crash_detection (s : ManagerState) (platform : Platform)
    (res : ExecResult) (now : String) (h : s.currentStatus = ServerStatus.running) :
    ((checkJavaProcess platform res).found = false →
      (runningMonitorTick s platform res now).1.currentStatus = ServerStatus.stopped ∧
      (runningMonitorTick s platform res now).1.runningMonitorInterval = none ∧
      (runningMonitorTick s platform res now).1.stoppingMonitorInterval = none ∧
      (runningMonitorTick s platform res now).2 =
        s.listeners.map fun l =>
          { listenerId := l.id
            info := { status := ServerStatus.stopped, timestamp := now
                      processFound := false, pid := none }
            threw := l.throws }) ∧
    ((checkJavaProcess platform res).found = true →
      runningMonitorTick s platform res now =
        ({ s with lastProcessCheck := checkJavaProcess platform res }, [])) := by
  constructor
  · intro hf
    have hpc := checkJavaProcess_not_found platform res hf
    have s1eq : runningMonitorTick s platform res now =
        setStatus { s with lastProcessCheck := { found := false, pid := none } }
          ServerStatus.stopped now := by
      simp [runningMonitorTick, checkJavaProcessM, hpc]
    rw [s1eq, setStatus_commit _ _ _ (by simp [h]), notifyAll_eq]
    exact ⟨rfl, rfl, rfl, rfl⟩
  · intro ht
    simp [runningMonitorTick, checkJavaProcessM, ht]

/-- Witness for `runningMonitor_crash_detection`: a crash tick on a concrete running manager. -/
theorem runningMonitor_crash_detection_witness :
    (runningMonitorTick mgrRunning .unix .err "T").1.currentStatus = ServerStatus.stopped ∧
    (runningMonitorTick mgrRunning .unix .err "T").2 =
      mgrRunning.listeners.map fun l =>
        { listenerId := l.id
          info := { status := ServerStatus.stopped, timestamp := "T"
                    processFound := false, pid := none }
          threw := l.throws } :=
  ⟨((runningMonitor_crash_detection mgrRunning .unix .err "T" (by decide)).1 (by decide)).1,
   ((runningMonitor_crash_detection mgrRunning .unix .err "T" (by decide)).1 (by decide)).2.2.2⟩

/-- Claim C6: on every committed transition each registered listener is
invoked exactly once, in registration order, with the same `StatusInfo`
snapshot; a throwing listener is recorded as caught (`threw`) and does not
prevent any later listener from being invoked with that snapshot, and the
committed status, listener set, cached probe result and monitor
configuration are determined by the new state alone, unaffected by which
listeners threw. -/
theorem listener_isolation (s : ManagerState) (t : ServerStatus) (now : String)
    (h : s.currentStatus ≠ t) :
    (setStatus s t now).2 =
      s.listeners.map (fun l =>
        { listenerId := l.id
          info := { status := t, timestamp := now
                    processFound := s.lastProcessCheck.found
                    pid := s.lastProcessCheck.pid }
          threw := l.throws }) ∧
    (setStatus s t now).1.currentStatus = t ∧
    (setStatus s t now).1.listeners = s.listeners ∧
    (setStatus s t now).1.lastProcessCheck = s.lastProcessCheck ∧
    (setStatus s t now).1.runningMonitorInterval =
      (if t = ServerStatus.running then some 5000 else none) ∧
    (setStatus s t now).1.stoppingMonitorInterval =
      (if t = ServerStatus.stopping then some 1000 else none) := by
  rw [setStatus_commit s t now h, notifyAll_eq]
  exact ⟨rfl, rfl, rfl, rfl, rfl, rfl⟩

/-- Witness for `listener_isolation`: a throwing listener registered before a well-behaved one. -/
theorem listener_isolation_witness :
    (setStatus mgrStarting .running "T").2 =
      mgrStarting.listeners.map (fun l =>
        { listenerId := l.id
          info := { status := ServerStatus.running, timestamp := "T"
                    processFound := mgrStarting.lastProcessCheck.found
                    pid := mgrStarting.lastProcessCheck.pid }
          threw := l.throws }) ∧
    (setStatus mgrStarting .running "T").1.currentStatus = ServerStatus.running :=
  ⟨(listener_isolation mgrStarting .running "T" (by decide)).1,
   (listener_isolation mgrStarting .running "T" (by decide)).2.1⟩

/-- Claim C7: `checkJavaProcess` never throws past its boundary: a rejected
command yields `{ found: false }` on either platform, and so does output in
which no line matches the expected signature; a Unix `ps` line consisting of
a nonempty user field, whitespace and a numeric token matches with pid equal
to that first numeric token after the user field, and the first matching
stdout line is the one reported. -/
theorem checkJavaProcess_probe_contract (platform : Platform) (out : String)
    (user ws ds rest : List Char) (pre post : List (List Char))
    (hu : user ≠ []) (hu2 : ∀ c ∈ user, isJsWs c = false)
    (hw : ws ≠ []) (hw2 : ∀ c ∈ ws, isJsWs c = true)
    (hd : ds ≠ []) (hd2 : ∀ c ∈ ds, c ∈ "0123456789".toList)
    (hr : ∀ c ∈ rest.take 1, c.isDigit = false)
    (hpre : ∀ l ∈ pre, psLinePid l = none) :
    checkJavaProcess platform .err = { found := false, pid := none } ∧
    (winScan (splitOnChar '\n' (jsTrimL out.toList)) = none →
      checkJavaProcess .win32 (.ok out) = { found := false, pid := none }) ∧
    (unixScan (splitOnChar '\n' (jsTrimL out.toList)) = none →
      checkJavaProcess .unix (.ok out) = { found := false, pid := none }) ∧
    psLinePid (user ++ ws ++ ds ++ rest) = some (digitsToNat ds) ∧
    unixScan (pre ++ (user ++ ws ++ ds ++ rest) :: post) = some (digitsToNat ds) ∧
    (∀ p : Nat, unixScan (splitOnChar '\n' (jsTrimL out.toList)) = some p →
      checkJavaProcess .unix (.ok out) = { found := true, pid := some (.int (p : Int)) }) := by
  have hps := psLinePid_spec user ws ds rest hu hu2 hw hw2 hd hd2 hr
  refine ⟨by cases platform <;> rfl, ?_, ?_, hps,
    unixScan_first pre _ post _ hpre hps, ?_⟩
  · intro hwn
    simp only [checkJavaProcess]
    rw [hwn]
  · intro hun
    simp only [checkJavaProcess]
    by_cases he : (jsTrimL out.toList).isEmpty = true
    · rw [if_pos he]
    · rw [if_neg he, hun]
  · intro p hp
    simp only [checkJavaProcess]
    by_cases he : (jsTrimL out.toList).isEmpty = true
    · exfalso
      have hnil : jsTrimL out.toList = [] := by simpa using he
      have h0 : unixScan (splitOnChar '\n' ([] : List Char)) = none := by decide
      rw [hnil, h0] at hp
      simp at hp
    · rw [if_neg he, hp]

/-- Witness for `checkJavaProcess_probe_contract` on a concrete `ps aux` line. -/
theorem checkJavaProcess_probe_contract_witness :
    psLinePid psOutLine.toList = some 4242 ∧
    checkJavaProcess .unix (.ok psOutLine) =
      { found := true, pid := some (JsNum.int 4242) } := by
  have h := checkJavaProcess_probe_contract .unix psOutLine
    "root".toList "      ".toList "4242".toList "  0.1  1.2 java -jar server.jar".toList
    [] []
    (by decide) (by decide) (by decide) (by decide) (by decide) (by decide) (by decide)
    (by decide)
  refine ⟨?_, ?_⟩
  · have e1 : psOutLine.toList =
        "root".toList ++ "      ".toList ++ "4242".toList ++
          "  0.1  1.2 java -jar server.jar".toList := by decide
    have e2 : digitsToNat "4242".toList = 4242 := by decide
    rw [e1, h.2.2.2.1, e2]
  · exact h.2.2.2.2.2 4242 (by decide)

/-- Claim C8 counterexample: for the properties content `server-port=0` the
value parses (to the number 0), yet `parseInt(...) || 25565` discards it as
falsy and `isPortListening` reports port 25565 — so the default is not used
exactly when the key is absent or its value is unparseable. -/
theorem isPortListening_port_zero_cex :
    isPortListening (.ok "server-port=0\n") (fun _ => .ok "LISTEN") =
      { listening := true, port := some 25565 } ∧
    parseIntJS (portLineValue "server-port=0".toList) = JsNum.int 0 := by
  constructor <;> decide

/-- Claim C8 (amended): `isPortListening` takes the port from the first
`server-port=` line of the properties file and uses 25565 when the key is
absent, when the value does not parse (NaN), or when it parses to the falsy
number 0; a missing file or a failed command yields `listening: false`
(never an exception), and a successful command reports `listening` iff its
trimmed stdout is nonempty, alongside the configured port. -/
theorem isPortListening_fallback (runCmd : Int → ExecResult) (content out : String)
    (l : List Char) (n : Int) :
    isPortListening .err runCmd = { listening := false, port := none } ∧
    (runCmd (getConfiguredPort content) = .err →
      isPortListening (.ok content) runCmd = { listening := false, port := none }) ∧
    (runCmd (getConfiguredPort content) = .ok out →
      isPortListening (.ok content) runCmd =
        { listening := decide (0 < (jsTrimL out.toList).length)
          port := some (getConfiguredPort content) }) ∧
    ((splitCRLF content.toList).find? (fun q => startsWithL "server-port=".toList q) = none →
      getConfiguredPort content = 25565) ∧
    ((splitCRLF content.toList).find? (fun q => startsWithL "server-port=".toList q) = some l →
      ((parseIntJS (portLineValue l) = .nan ∨ parseIntJS (portLineValue l) = .int 0) →
        getConfiguredPort content = 25565) ∧
      (parseIntJS (portLineValue l) = .int n → n ≠ 0 → getConfiguredPort content = n)) := by
  refine ⟨rfl, ?_, ?_, ?_, ?_⟩
  · intro hc
    simp [isPortListening, hc]
  · intro hc
    simp [isPortListening, hc]
  · intro hf
    unfold getConfiguredPort
    rw [portScan_eq_find, hf]
  · intro hf
    constructor
    · intro hv
      unfold getConfiguredPort
      rw [portScan_eq_find, hf]
      rcases hv with hv | hv <;> simp [jsOrInt, hv]
    · intro hv hn
      unfold getConfiguredPort
      rw [portScan_eq_find, hf]
      simp [jsOrInt, hv, hn]

/-- Witness for `isPortListening_fallback` on a concrete properties file. -/
theorem isPortListening_fallback_witness :
    isPortListening (.ok "motd=hi\nserver-port=8080") (fun _ => .ok "LISTEN") =
      { listening := decide (0 < (jsTrimL "LISTEN".toList).length)
        port := some (getConfiguredPort "motd=hi\nserver-port=8080") } ∧
    getConfiguredPort "motd=hi\nserver-port=8080" = 8080 :=
  ⟨(isPortListening_fallback (fun _ => .ok "LISTEN") "motd=hi\nserver-port=8080" "LISTEN"
      "server-port=8080".toList 8080).2.2.1 (by decide),
   ((isPortListening_fallback (fun _ => .ok "LISTEN") "motd=hi\nserver-port=8080" "LISTEN"
      "server-port=8080".toList 8080).2.2.2.2 (by decide)).2 (by decide) (by decide)⟩

/-- Claim C9: `setStatus` never modifies the cached process-check result:
the committed state keeps `lastProcessCheck` unchanged, every notified
snapshot carries the `processFound`/`pid` of the most recent probe together
with the newly committed status, and `getStatusInfo` reads those same cached
fields; in particular a classifier-driven `starting → running` transition
notifies a snapshot with status `running` but `processFound: false`. -/
theorem setStatus_frame_processCheck (s : ManagerState) (t : ServerStatus) (now : String) :
    (setStatus s t now).1.lastProcessCheck = s.lastProcessCheck ∧
    (setStatus s t now).2.map NotifyEvent.info =
      (setStatus s t now).2.map (fun _ =>
        { status := (setStatus s t now).1.currentStatus
          timestamp := now
          processFound := s.lastProcessCheck.found
          pid := s.lastProcessCheck.pid }) ∧
    (getStatusInfo s now).processFound = s.lastProcessCheck.found ∧
    (getStatusInfo s now).pid = s.lastProcessCheck.pid ∧
    (handleTerminalLine mgrStarting1 doneLine now).2 =
      [{ listenerId := 0
         info := { status := ServerStatus.running, timestamp := now
                   processFound := false, pid := none }
         threw := false }] := by
  refine ⟨?_, ?_, rfl, rfl, ?_⟩
  · by_cases h : s.currentStatus = t
    · rw [setStatus_noop s t now h]
    · rw [setStatus_commit s t now h]
  · by_cases h : s.currentStatus = t
    · rw [setStatus_noop s t now h]
      rfl
    · rw [setStatus_commit s t now h, notifyAll_eq]
      simp only [List.map_map]
      rfl
  · have hd : matchStartupComplete doneLine = true := by decide
    have h1 : handleTerminalLine mgrStarting1 doneLine now =
        setStatus mgrStarting1 .running now := by
      simp [handleTerminalLine, mgrStarting1, mgr0, hd]
    rw [h1, setStatus_commit _ _ _ (by decide), notifyAll_eq]
    rfl

/-- Claim C10: `setStatus` enforces no transition-table restriction: from
any state, committing any distinct state T sets the status to T, notifies
every registered listener exactly once, and installs exactly the monitor
configuration of T; in particular `setStatus('stopping')` from the initial
`stopped` state succeeds and starts the 1-second stopping monitor while the
running monitor stays off. -/
theorem setStatus_no_transition_table (s : ManagerState) (t : ServerStatus) (now : String)
    (h : s.currentStatus ≠ t) :
    (setStatus s t now).1.currentStatus = t ∧
    (setStatus s t now).2.map NotifyEvent.listenerId = s.listeners.map Listener.id ∧
    (setStatus s t now).1.runningMonitorInterval =
      (if t = ServerStatus.running then some 5000 else none) ∧
    (setStatus s t now).1.stoppingMonitorInterval =
      (if t = ServerStatus.stopping then some 1000 else none) ∧
    (setStatus mgr0 .stopping now).1.currentStatus = ServerStatus.stopping ∧
    (setStatus mgr0 .stopping now).1.stoppingMonitorInterval = some 1000 ∧
    (setStatus mgr0 .stopping now).1.runningMonitorInterval = none := by
  rw [setStatus_commit s t now h, notifyAll_eq,
    setStatus_commit mgr0 .stopping now (by decide)]
  refine ⟨rfl, ?_, rfl, rfl, rfl, rfl, rfl⟩
  simp only [List.map_map]
  rfl

/-- Witness for `setStatus_no_transition_table`: stopped to stopping. -/
theorem setStatus_no_transition_table_witness :
    (setStatus mgr0 .stopping "T").1.currentStatus = ServerStatus.stopping ∧
    (setStatus mgr0 .stopping "T").1.stoppingMonitorInterval = some 1000 :=
  ⟨(setStatus_no_transition_table mgr0 .stopping "T" (by decide)).1,
   (setStatus_no_transition_table mgr0 .stopping "T" (by decide)).2.2.2.2.2.1⟩

end PanelMCX
